import Mathlib

/-!
# Verification of the AbleCarry_API generation/archive service

Shallow embedding of `src/app.py` (the FastAPI backend driving the RunningHub
remote workflow API and the local archive).  Pure helpers become Lean
functions; effectful handlers become functions from an explicit environment
(remote responses, clock stamp, random seed, filesystem contents) to a result
value paired with a record of the side effects they perform (remote calls
made, files written, log record appended).  Python truthiness on optional
strings (`None` and `""` are falsy) is modelled explicitly by `pyTruthy`.
-/

namespace AbleCarry

/-- Python truthiness of an optional string: `None` and `""` are falsy. -/
def pyTruthy : Option String → Bool
  | none => false
  | some s => s ≠ ""

/-- Python `a or b` on optional strings: returns `a` if truthy, else `b`. -/
def pyOr (a b : Option String) : Option String :=
  if pyTruthy a then a else b

/-- Python `a or d` where `d` is a plain (truthy) default string. -/
def pyOrStr (a : Option String) (d : String) : String :=
  if pyTruthy a then a.getD "" else d

/-- Decimal digit test, as in Python `int()` parsing. -/
def isDig (c : Char) : Bool := '0' ≤ c ∧ c ≤ '9'

/-- Accumulate a digit list into a natural number. -/
def digitsToNat (cs : List Char) : Nat :=
  cs.foldl (fun a c => a * 10 + (c.toNat - 48)) 0

/-- Model of Python `int(s)` on strings: strip surrounding whitespace, an
optional sign, then a non-empty run of decimal digits; anything else raises
`ValueError`, modelled as `none`.  (Python additionally accepts single
underscores between digits and non-ASCII digits; no claim depends on those
inputs, so they are not modelled.) -/
def pyParseInt (s : String) : Option Int :=
  let cs := ((s.data.dropWhile Char.isWhitespace).reverse.dropWhile
      Char.isWhitespace).reverse
  match cs with
  | [] => none
  | c :: rest =>
    let signed : Bool × List Char :=
      if c = '-' then (true, rest) else if c = '+' then (false, rest) else (false, cs)
    if signed.2 ≠ [] ∧ signed.2.all isDig then
      some (if signed.1 then -(digitsToNat signed.2 : Int) else (digitsToNat signed.2 : Int))
    else none

/-- Lexicographic `≤` on code-point lists, as Python compares strings. -/
def lexLeAux : List Char → List Char → Bool
  | [], _ => true
  | _ :: _, [] => false
  | a :: as, b :: bs => if a < b then true else if b < a then false else lexLeAux as bs

/-- Python `a <= b` on strings: lexicographic by code point. -/
def pyStrLe (a b : String) : Bool := lexLeAux a.data b.data

/-- Prefix test on code-point lists. -/
def startsWithAux : List Char → List Char → Bool
  | [], _ => true
  | _ :: _, [] => false
  | a :: as, b :: bs => a = b && startsWithAux as bs

/-- Whether `pre` is a prefix of `s` (used to model the `glob` pattern
`f"{archive_id}_*"`). -/
def strStartsWith (pre s : String) : Bool := startsWithAux pre.data s.data

/-- Python `f"{n:02d}"`: zero-pad to width 2 (sign counts toward the width,
matching Python for the negative single-digit case, which the pipeline never
produces since the option is validated `≥ 1`). -/
def py02d (n : Int) : String :=
  if 0 ≤ n ∧ n < 10 then "0" ++ toString n else toString n

/-- One element of the remote `outputs` list, keeping exactly the four URL
alias fields consulted by `pick_image_url` (`None`/absent are conflated, as
`dict.get` does). -/
structure OutputItem where
  fileUrl : Option String
  imageUrl : Option String
  url : Option String
  image_url : Option String
deriving DecidableEq, Repr

/-- Function `pick_image_url` from `src/app.py`: `outputs[0] if outputs else {}`, then
the Python `or`-chain over the four alias fields (so a present-but-falsy
field is skipped, and the final operand is returned when all are falsy). -/
def pick_image_url (outputs : List OutputItem) : Option String :=
  let first := outputs.headD ⟨none, none, none, none⟩
  pyOr first.fileUrl (pyOr first.imageUrl (pyOr first.url first.image_url))

/-- The claim's reading of `pickOutputUrl`: the first *present* field among
the four aliases in the first element, `none` exactly when all four are
absent.  Stated from the spec's words, to be compared against
`pick_image_url`. -/
def pickOutputUrl_claim (outputs : List OutputItem) : Option String :=
  match outputs with
  | [] => none
  | first :: _ => first.fileUrl <|> first.imageUrl <|> first.url <|> first.image_url

/-- The amended reading: the first field among the four aliases that is
present with a non-empty value, `none` when no field is truthy. -/
def pickOutputUrl_amended (outputs : List OutputItem) : Option String :=
  match outputs with
  | [] => none
  | first :: _ =>
    if pyTruthy first.fileUrl then first.fileUrl
    else if pyTruthy first.imageUrl then first.imageUrl
    else if pyTruthy first.url then first.url
    else if pyTruthy first.image_url then first.image_url
    else none

/-! ## The polling loop (`poll_outputs`) -/

/-- The `data` field of a remote outputs response: a JSON list, a JSON object
whose `outputs` key may hold a list (`none` covers both a missing key and a
non-list value, which the code treats alike), or any other JSON value. -/
inductive RHData where
  | lst (items : List OutputItem)
  | dct (outputs : Option (List OutputItem))
  | other
deriving DecidableEq, Repr

/-- A remote outputs-endpoint response: status code plus data payload. -/
structure OutputsResp where
  code : Int
  data : RHData
deriving DecidableEq, Repr

/-- Terminal outcome of the polling loop.  `protocolErr` stands for the
`RuntimeError`s raised on an empty result or an unexpected code;
`timeoutErr` for the `TimeoutError` raised when the deadline passes. -/
inductive PollResult where
  | success (items : List OutputItem)
  | protocolErr
  | timeoutErr
deriving DecidableEq, Repr

/-- The `code == 0` discrimination of `poll_outputs`: a non-empty direct
list, or a non-empty list under the `outputs` key of a dict; everything else
raises (`none`). -/
def extractOutputs : RHData → Option (List OutputItem)
  | .lst items => if items = [] then none else some items
  | .dct (some items) => if items = [] then none else some items
  | .dct none => none
  | .other => none

/-- The body of the `poll_outputs` `while` loop.  `responses n` is the remote
answer to the `n`-th query; `elapsed` models `time.time() - start`, advanced
by `interval_sec` at each `code == 804` sleep (remote latency is not
modelled, so the loop guard `time.time() - start < timeout_sec` becomes
`elapsed < timeout_sec`).  Returns the terminal result, the number of remote
queries performed, and the final elapsed time.  `fuel` makes the recursion
structural; with `1 ≤ interval_sec` a fuel of `timeout_sec + 1 - elapsed` is
never exhausted (the fuel-out value coincides with the deadline value), and
with `interval_sec = 0` the Python loop would not terminate at all. -/
def pollAux (responses : Nat → OutputsResp) (timeout_sec interval_sec : Nat) :
    Nat → Nat → Nat → PollResult × Nat × Nat
  | 0, _, elapsed => (.timeoutErr, 0, elapsed)
  | fuel + 1, n, elapsed =>
    if elapsed < timeout_sec then
      let resp := responses n
      if resp.code = 0 then
        match extractOutputs resp.data with
        | some items => (.success items, 1, elapsed)
        | none => (.protocolErr, 1, elapsed)
      else if resp.code = 804 then
        let r := pollAux responses timeout_sec interval_sec fuel (n + 1)
          (elapsed + interval_sec)
        (r.1, r.2.1 + 1, r.2.2)
      else (.protocolErr, 1, elapsed)
    else (.timeoutErr, 0, elapsed)

/-- Function `poll_outputs(task_id, timeout_sec, interval_sec)` from `src/app.py`,
started at the first query with no time elapsed. -/
def poll_outputs (responses : Nat → OutputsResp) (timeout_sec : Nat := 300)
    (interval_sec : Nat := 3) : PollResult × Nat × Nat :=
  pollAux responses timeout_sec interval_sec (timeout_sec + 1) 0 0

/-! ## The generation pipeline (`/api/generate`) -/

/-- The `data` object of a remote create response (`taskId` / `id` keys). -/
structure CreateData where
  taskId : Option String
  id : Option String
deriving DecidableEq, Repr

/-- A remote create-endpoint response. -/
structure CreateResp where
  code : Int
  data : CreateData
deriving DecidableEq, Repr

/-- Environment a single `/api/generate` request runs against: the UTC stamp
taken at archive time, the random seed drawn, the remote answers, the
behaviour of the plain `GET` on the output URL (`none` = HTTP error raised
by `raise_for_status`), the `mimetypes.guess_extension` table, and the
configured `ARCHIVE_TOKEN`. -/
structure GenEnv where
  ts : String
  seed : Nat
  createResp : CreateResp
  outputsResp : Nat → OutputsResp
  fetch : String → Option (List Nat)
  guess_ext : String → Option String
  archive_token : String

/-- The JSONL record appended to `archives/archives.jsonl` (nested input /
output descriptors flattened into fields). -/
structure LogRecord where
  id : String
  ts : String
  taskId : String
  productOption : Int
  inputFilename : String
  inputMime : String
  inputSize : Nat
  outputFilename : String
  outputMime : String
  outputSize : Nat
  runninghubUrl : String
deriving DecidableEq, Repr

/-- The success body returned by `/api/generate`. -/
structure GenSuccess where
  taskId : String
  seed : Nat
  archiveId : String
  imageUrl : String
  inputDownloadUrl : String
deriving DecidableEq, Repr

/-- Outcome of the handler: success body, or a `JSONResponse` with an HTTP
status and an error message (the 500 messages keep only the fixed prefix of
the Python f-string diagnostics). -/
inductive GenResponse where
  | ok (payload : GenSuccess)
  | err (status : Nat) (msg : String)
deriving DecidableEq, Repr

/-- Side effects of one `/api/generate` run: number of remote HTTP requests
issued (create + each poll query + the output download), the blob filenames
written, and the index record appended. -/
structure GenEffects where
  remoteCalls : Nat
  inputFile : Option String
  outputFile : Option String
  logRecord : Option LogRecord
deriving DecidableEq, Repr

/-- No side effects yet. -/
def noEffects : GenEffects := ⟨0, none, none, none⟩

/-- Side effects of a run that failed after `k` remote calls. -/
def callsOnly (k : Nat) : GenEffects := ⟨k, none, none, none⟩

/-- Function `safe_ext_from_mime` from `src/app.py`, with the
`mimetypes.guess_extension` table passed in as `guess`. -/
def safe_ext_from_mime (guess : String → Option String) (mime : String) : String :=
  match guess mime with
  | some ext =>
    if ext = ".jpg" ∨ ext = ".jpeg" ∨ ext = ".png" ∨ ext = ".webp" then ext else ".bin"
  | none => ".bin"

/-- The `/api/generate` handler from `src/app.py`, lines 181–280.  Validation
happens in source order (option parse, option `≥ 1`, empty upload); the
base64 re-encoding of the upload only feeds the remote node list, which the
environment's canned responses stand for, so its value is not materialised
here.  `create_task`'s checks (`code == 0`, truthy `taskId or id`), the
polling loop, `pick_image_url`'s truthiness check, the output download, the
archive filenames, the archive id and the index record are modelled verbatim;
every exception raised inside the `try` block surfaces as a 500 response. -/
def generate (env : GenEnv) (productOption : String) (input_bytes : List Nat)
    (content_type : Option String) : GenResponse × GenEffects :=
  match pyParseInt productOption with
  | none => (.err 400 "productOption must be a number (e.g. 1 or 2).", noEffects)
  | some opt =>
    if opt < 1 then (.err 400 "productOption must be >= 1.", noEffects)
    else if input_bytes = [] then (.err 400 "Empty upload.", noEffects)
    else if env.createResp.code ≠ 0 then (.err 500 "Create error", callsOnly 1)
    else
      let tid := pyOr env.createResp.data.taskId env.createResp.data.id
      if pyTruthy tid = false then
        (.err 500 "Create succeeded but no taskId", callsOnly 1)
      else
        let task_id := tid.getD ""
        let polled := poll_outputs env.outputsResp 300 3
        match polled.1 with
        | .timeoutErr => (.err 500 "RunningHub timeout", callsOnly (1 + polled.2.1))
        | .protocolErr => (.err 500 "Outputs error", callsOnly (1 + polled.2.1))
        | .success outputs =>
          let output_url := pick_image_url outputs
          if pyTruthy output_url = false then
            (.err 500 "No imageUrl found in outputs", callsOnly (1 + polled.2.1))
          else
            match env.fetch (output_url.getD "") with
            | none => (.err 500 "HTTP error fetching output",
                callsOnly (1 + polled.2.1 + 1))
            | some output_bytes =>
              let ts := env.ts
              let bag_label := "bag-" ++ py02d opt
              let in_mime := pyOrStr content_type "application/octet-stream"
              let in_ext := safe_ext_from_mime env.guess_ext in_mime
              let input_filename :=
                ts ++ "_" ++ bag_label ++ "_task_" ++ task_id ++ "_input" ++ in_ext
              let output_filename :=
                ts ++ "_" ++ bag_label ++ "_task_" ++ task_id ++ "_output.png"
              let archive_id := ts ++ "_" ++ bag_label ++ "_task_" ++ task_id
              let record : LogRecord :=
                ⟨archive_id, ts, task_id, opt, input_filename, in_mime,
                  input_bytes.length, output_filename, "image/png",
                  output_bytes.length, output_url.getD ""⟩
              (.ok ⟨task_id, env.seed, archive_id,
                  "/api/archive/download/" ++ archive_id ++ "?token=" ++
                    env.archive_token ++ "&kind=output",
                  "/api/archive/download/" ++ archive_id ++ "?token=" ++
                    env.archive_token ++ "&kind=input"⟩,
                ⟨1 + polled.2.1 + 1, some input_filename, some output_filename,
                  some record⟩)

/-! ## The archive list endpoint (`/api/archive/list`) -/

/-- One parsed JSONL line of the archive log, keeping the `ts` field the
filter consults (absent field = `none`, mirroring `rec.get("ts", "")`
defaulting) and the record id for identification. -/
structure LogLine where
  id : Option String
  ts : Option String
deriving DecidableEq, Repr

/-- Python `items[-limit:]`: with `limit = 0` the slice `[-0:]` is the whole
list; otherwise the last `min limit (length)` elements. -/
def pySliceLast (items : List LogLine) (limit : Nat) : List LogLine :=
  if limit = 0 then items else items.drop (items.length - limit)

/-- The filtering/truncation core of `archive_list` (`src/app.py` lines
298–314), after the token check and with the JSONL lines already parsed
(malformed and blank lines never become records).  A record is skipped when
`since` is truthy (provided and non-empty) and `rec.get("ts", "") <= since`
under lexicographic string comparison; the survivors' last `limit` entries
are returned in file order. -/
def archive_list (log : List LogLine) (since : Option String) (limit : Nat) :
    List LogLine :=
  let items := log.filter fun rec =>
    !(pyTruthy since && pyStrLe (rec.ts.getD "") (since.getD ""))
  pySliceLast items limit

/-! ## The retention sweep (`cleanup_old_archives`) -/

/-- Leap year test (Gregorian), as `datetime` uses. -/
def isLeap (y : Nat) : Bool := y % 4 = 0 && (y % 100 ≠ 0 || y % 400 = 0)

/-- Length of month `m` of year `y`. -/
def daysInMonth (y m : Nat) : Nat :=
  if m = 1 ∨ m = 3 ∨ m = 5 ∨ m = 7 ∨ m = 8 ∨ m = 10 ∨ m = 12 then 31
  else if m = 4 ∨ m = 6 ∨ m = 9 ∨ m = 11 then 30
  else if isLeap y then 29 else 28

/-- Days in year `y` strictly before month `m`. -/
def daysBeforeMonth (y m : Nat) : Nat :=
  (List.range (m - 1)).foldl (fun acc i => acc + daysInMonth y (i + 1)) 0

/-- Days from 0001-01-01 to the given proleptic-Gregorian date. -/
def daysFromCivil (y m d : Nat) : Nat :=
  365 * (y - 1) + (y - 1) / 4 + (y - 1) / 400 - (y - 1) / 100 +
    daysBeforeMonth y m + (d - 1)

/-- Pair of decimal digit characters as a number. -/
def d2 (a b : Char) : Nat := (a.toNat - 48) * 10 + (b.toNat - 48)

/-- Four decimal digit characters as a number. -/
def d4 (a b c d : Char) : Nat := (d2 a b) * 100 + d2 c d

/-- Model of `datetime.strptime(stamp, "%Y%m%dT%H%M%SZ")` on the fixed-width 16-char
stamp format the archive filenames use, as seconds since 0001-01-01 UTC
(`datetime` comparison of aware datetimes is comparison of these instants).
Any string that `strptime` rejects on this format — wrong length or
separators, non-digits, a field out of its calendar range — is `none`,
which the sweep's bare `except` skips. -/
def parseStamp (s : String) : Option Nat :=
  match s.data with
  | [y1, y2, y3, y4, m1, m2, a1, a2, t, h1, h2, n1, n2, s1, s2, z] =>
    if ([y1, y2, y3, y4, m1, m2, a1, a2, h1, h2, n1, n2, s1, s2].all isDig
        ∧ t = 'T' ∧ z = 'Z') then
      let y := d4 y1 y2 y3 y4
      let mo := d2 m1 m2
      let da := d2 a1 a2
      let h := d2 h1 h2
      let mi := d2 n1 n2
      let se := d2 s1 s2
      if 1 ≤ y ∧ 1 ≤ mo ∧ mo ≤ 12 ∧ 1 ≤ da ∧ da ≤ daysInMonth y mo
          ∧ h ≤ 23 ∧ mi ≤ 59 ∧ se ≤ 59 then
        some (daysFromCivil y mo da * 86400 + h * 3600 + mi * 60 + se)
      else none
    else none
  | _ => none

/-- Model of `p.name.split("_", 1)[0]`: the filename up to the first underscore (the
whole name when there is none). -/
def leadingSegment (name : String) : String :=
  String.mk (name.data.takeWhile (· ≠ '_'))

/-- Function `cleanup_old_archives` from `src/app.py` lines 152–177.  `retention` is
the stripped `ARCHIVE_RETENTION_DAYS` value; `now` is the current instant in
the same seconds scale as `parseStamp`; `files` are the names found in the
two blob folders.  Returns the names deleted: none when the setting is empty,
non-integer (the bare `except: return`) or `≤ 0`; otherwise those whose
parseable leading stamp is strictly before `now - days` (per-file parse
failures are skipped by the inner bare `except`). -/
def cleanup_old_archives (retention : String) (now : Int) (files : List String) :
    List String :=
  if retention = "" then []
  else
    match pyParseInt retention with
    | none => []
    | some days =>
      if days ≤ 0 then []
      else
        files.filter fun name =>
          match parseStamp (leadingSegment name) with
          | some stamp => decide ((stamp : Int) < now - days * 86400)
          | none => false

/-! ## Token check and download endpoint -/

/-- Function `require_token` from `src/app.py`: `some message` when it raises, `none`
when the token is accepted.  The empty configured token is Python-falsy, so
the unconfigured server always raises (fail-closed). -/
def require_token (archive_token token : String) : Option String :=
  if archive_token = "" then some "ARCHIVE_TOKEN is not configured on server."
  else if token ≠ archive_token then some "Invalid token."
  else none

/-- Outcome of `/api/archive/download/{archive_id}`: an error response, or a
streamed file with its name and MIME type. -/
inductive DownloadResult where
  | err (status : Nat) (msg : String)
  | stream (filename : String) (mime : String)
deriving DecidableEq, Repr

/-- Function `archive_download` from `src/app.py` lines 316–352.  `input_files` /
`output_files` are the names present in the two blob folders; the boolean
records whether the directory scan (`folder.glob(f"{archive_id}_*")`) was
performed.  The glob is modelled as a `archive_id ++ "_"` name-prefix match
(archive ids produced by the pipeline contain no glob metacharacters);
`matches[0]` is the first match in directory order. -/
def archive_download (archive_token : String)
    (input_files output_files : List String)
    (archive_id token kind : String) : DownloadResult × Bool :=
  match require_token archive_token token with
  | some msg => (.err 401 msg, false)
  | none =>
    if kind ≠ "input" ∧ kind ≠ "output" then
      (.err 400 "kind must be input or output", false)
    else
      let folder := if kind = "input" then input_files else output_files
      let found := folder.filter fun n => strStartsWith (archive_id ++ "_") n
      match found with
      | [] => (.err 404 "File not found", true)
      | p :: _ =>
        (.stream p (if kind = "output" then "image/png"
            else "application/octet-stream"), true)

/-! ## Claim C2: `pick_image_url` field selection -/

/-- A truthy optional string is in particular present. -/
theorem pyTruthy_ne_none {a : Option String} (h : pyTruthy a = true) : a ≠ none := by
  cases a with
  | none => exact absurd h (by simp [pyTruthy])
  | some s => exact fun h' => Option.noConfusion h'

/-- C2, counterexample: the claim says `pickOutputUrl` returns the value of
the first field among `fileUrl`, `imageUrl`, `url`, `image_url` that is
*present* in the first element.  On `{"fileUrl": "", "url": "http://x"}` the
first present field is `fileUrl` with value `""`, but the Python `or`-chain
skips the falsy empty string and returns `"http://x"`. -/
theorem C2_counterexample :
    pick_image_url [⟨some "", none, some "http://x", none⟩] = some "http://x" ∧
    pickOutputUrl_claim [⟨some "", none, some "http://x", none⟩] = some "" ∧
    (some "http://x" : Option String) ≠ some "" := by
  refine ⟨rfl, rfl, by decide⟩

/-- C2 (amended): from the first element of the output list,
`pick_image_url` returns the first field among `fileUrl`, `imageUrl`, `url`,
`image_url` that is present with a non-empty value; the result is falsy
(absent or the empty string) exactly when no field among the four is present
with a non-empty value. -/
theorem C2_pick_image_url_first_truthy (outputs : List OutputItem) :
    (pickOutputUrl_amended outputs ≠ none →
      pick_image_url outputs = pickOutputUrl_amended outputs) ∧
    (pyTruthy (pick_image_url outputs) = false ↔
      pickOutputUrl_amended outputs = none) := by
  cases outputs with
  | nil =>
    exact ⟨fun h => absurd rfl h,
      by simp [pick_image_url, pickOutputUrl_amended, pyOr, pyTruthy]⟩
  | cons first rest =>
    simp only [pick_image_url, pickOutputUrl_amended, List.headD]
    by_cases h1 : pyTruthy first.fileUrl <;>
      by_cases h2 : pyTruthy first.imageUrl <;>
        by_cases h3 : pyTruthy first.url <;>
          by_cases h4 : pyTruthy first.image_url <;>
            simp [pyOr, h1, h2, h3, h4] <;>
              first
                | exact pyTruthy_ne_none h1
                | exact pyTruthy_ne_none h2
                | exact pyTruthy_ne_none h3
                | exact pyTruthy_ne_none h4

/-- C2 witness: the amended theorem evaluated at a concrete output list. -/
theorem C2_witness :
    pick_image_url [⟨none, some "http://y", none, none⟩] =
      pickOutputUrl_amended [⟨none, some "http://y", none, none⟩] :=
  (C2_pick_image_url_first_truthy [⟨none, some "http://y", none, none⟩]).1
    (by decide)

/-! ## Claims C3 and C4: the polling loop -/

/-- Unfolding lemma for the loop body: `N` still-processing answers followed
by a definitive answer, starting at query `n` with `elapsed` on the clock. -/
theorem pollAux_804_then_done (responses : Nat → OutputsResp)
    (timeout interval : Nat) (items : List OutputItem) :
    ∀ N fuel n elapsed,
      (∀ i, i < N → (responses (n + i)).code = 804) →
      (responses (n + N)).code = 0 →
      extractOutputs (responses (n + N)).data = some items →
      elapsed + N * interval < timeout →
      N < fuel →
      pollAux responses timeout interval fuel n elapsed =
        (.success items, N + 1, elapsed + N * interval) := by
  intro N
  induction N with
  | zero =>
    intro fuel n elapsed h804 h0 hex hdl hfuel
    obtain ⟨f, rfl⟩ : ∃ f, fuel = f + 1 := ⟨fuel - 1, by omega⟩
    simp only [Nat.add_zero] at h0 hex
    simp only [pollAux]
    rw [if_pos (by omega : elapsed < timeout), if_pos h0, hex]
    simp
  | succ N ih =>
    intro fuel n elapsed h804 h0 hex hdl hfuel
    obtain ⟨f, rfl⟩ : ∃ f, fuel = f + 1 := ⟨fuel - 1, by omega⟩
    have hg : elapsed < timeout :=
      lt_of_le_of_lt (Nat.le_add_right _ _) hdl
    have hn : (responses n).code = 804 := by
      have := h804 0 (Nat.succ_pos N)
      simpa using this
    simp only [pollAux]
    rw [if_pos hg, if_neg (by rw [hn]; decide), if_pos hn]
    have hrec := ih f (n + 1) (elapsed + interval)
      (fun i hi => by
        have := h804 (i + 1) (by omega)
        have he : n + (i + 1) = n + 1 + i := by omega
        rwa [he] at this)
      (by
        have he : n + (N + 1) = n + 1 + N := by omega
        rwa [he] at h0)
      (by
        have he : n + (N + 1) = n + 1 + N := by omega
        rwa [he] at hex)
      (by rw [Nat.succ_mul] at hdl; omega)
      (by omega)
    rw [hrec]
    have he : elapsed + interval + N * interval = elapsed + (N + 1) * interval := by
      rw [Nat.succ_mul]; omega
    rw [he]

/-- C3: if the remote answers `code 804` to each of the first `N` queries and
gives a definitive non-empty result list on query `N + 1`, and the deadline
has not elapsed by then (`N` sleeps of `interval` seconds stay under
`timeout`), `poll_outputs` returns that list, performs exactly `N + 1`
queries, and the clock — never reset — stands at `N * interval` accumulated
sleep.  `extractOutputs` accepts the result list both directly and nested
under an `outputs` key. -/
theorem C3_poll_outputs_returns_after_still_processing
    (responses : Nat → OutputsResp) (N timeout interval : Nat)
    (items : List OutputItem) (hint : 1 ≤ interval)
    (h804 : ∀ i, i < N → (responses i).code = 804)
    (h0 : (responses N).code = 0)
    (hex : extractOutputs (responses N).data = some items)
    (hdl : N * interval < timeout) :
    poll_outputs responses timeout interval =
      (.success items, N + 1, N * interval) := by
  unfold poll_outputs
  have hfuel : N < timeout + 1 := by
    have h2 : N ≤ N * interval := Nat.le_mul_of_pos_right N hint
    omega
  have := pollAux_804_then_done responses timeout interval items N (timeout + 1)
    0 0 (fun i hi => by simpa using h804 i hi) (by simpa using h0)
    (by simpa using hex) (by omega) hfuel
  simpa using this

/-- C3 witness: two still-processing answers, then a direct non-empty list;
three queries, six seconds of accumulated sleep. -/
theorem C3_witness :
    poll_outputs
      (fun n => if n < 2 then ⟨804, .other⟩
        else ⟨0, .lst [⟨some "http://x/o.png", none, none, none⟩]⟩) 300 3 =
      (.success [⟨some "http://x/o.png", none, none, none⟩], 3, 6) :=
  C3_poll_outputs_returns_after_still_processing _ 2 300 3 _ (by decide)
    (fun i hi => by
      have : i = 0 ∨ i = 1 := by omega
      rcases this with rfl | rfl <;> rfl)
    rfl rfl (by decide)

/-- Loop behaviour when the remote never stops answering `code 804`: with
enough fuel the loop only ends by the deadline test, the final clock is the
first elapsed value `≥ timeout`, and every query was issued strictly before
the deadline. -/
theorem pollAux_always_804 (responses : Nat → OutputsResp)
    (timeout interval : Nat)
    (h804 : ∀ i, (responses i).code = 804) :
    ∀ fuel n elapsed, timeout ≤ elapsed + fuel * interval →
      ∃ q, pollAux responses timeout interval fuel n elapsed =
          (.timeoutErr, q, elapsed + q * interval) ∧
        timeout ≤ elapsed + q * interval ∧
        ∀ j, j < q → elapsed + j * interval < timeout := by
  intro fuel
  induction fuel with
  | zero =>
    intro n elapsed hf
    exact ⟨0, by simp [pollAux], by simpa using hf, fun j hj => by omega⟩
  | succ f ih =>
    intro n elapsed hf
    by_cases hg : elapsed < timeout
    · obtain ⟨q, heq, hge, hlt⟩ := ih (n + 1) (elapsed + interval)
        (by rw [Nat.succ_mul] at hf; omega)
      refine ⟨q + 1, ?_, ?_, ?_⟩
      · simp only [pollAux]
        rw [if_pos hg, if_neg (by rw [h804 n]; decide), if_pos (h804 n), heq]
        have he : elapsed + interval + q * interval =
            elapsed + (q + 1) * interval := by rw [Nat.succ_mul]; omega
        rw [he]
      · rw [Nat.succ_mul]; omega
      · intro j hj
        cases j with
        | zero => simpa using hg
        | succ j' =>
          have := hlt j' (by omega)
          rw [Nat.succ_mul]
          omega
    · exact ⟨0, by simp only [pollAux]; rw [if_neg hg]; simp,
        by simpa using Nat.le_of_not_lt hg, fun j hj => by omega⟩

/-- C4: against a remote that answers `code 804` forever, `poll_outputs`
fails with the timeout error (never the protocol error), it does so only
once the accumulated clock has reached the configured `timeout` — the final
elapsed value `q * interval` satisfies `timeout ≤ q * interval` — and every
one of its `q` queries was issued strictly before the deadline (it never
gives up early). -/
theorem C4_poll_outputs_times_out (responses : Nat → OutputsResp)
    (timeout interval : Nat) (hint : 1 ≤ interval)
    (h804 : ∀ i, (responses i).code = 804) :
    ∃ q, poll_outputs responses timeout interval =
        (.timeoutErr, q, q * interval) ∧
      timeout ≤ q * interval ∧ ∀ j, j < q → j * interval < timeout := by
  unfold poll_outputs
  obtain ⟨q, h1, h2, h3⟩ := pollAux_always_804 responses timeout interval h804
    (timeout + 1) 0 0
    (by have := Nat.le_mul_of_pos_right (timeout + 1) hint; omega)
  exact ⟨q, by simpa using h1, by simpa using h2,
    fun j hj => by simpa using h3 j hj⟩

/-- C4 witness: a 10-second deadline polled at 3-second intervals against a
remote stuck on `code 804`: queries at 0, 3, 6 and 9 seconds, then the
deadline test fails at 12 seconds. -/
theorem C4_witness :
    poll_outputs (fun _ => ⟨804, .other⟩) 10 3 = (.timeoutErr, 4, 12) := by
  obtain ⟨q, h1, h2, h3⟩ :=
    C4_poll_outputs_times_out (fun _ => ⟨804, .other⟩) 10 3 (by decide)
      (fun _ => rfl)
  have hub := h3 4
  have hq : q = 4 := by omega
  subst hq
  simpa using h1

/-! ## Claim C5: productOption validation -/

/-- C5: when `productOption` does not parse as an integer, or parses below 1,
`/api/generate` returns a 400 response carrying one of the two human-readable
messages from the source, and issues no remote call at all. -/
theorem C5_generate_rejects_bad_option (env : GenEnv) (productOption : String)
    (input_bytes : List Nat) (content_type : Option String)
    (h : pyParseInt productOption = none ∨
      ∃ v, pyParseInt productOption = some v ∧ v < 1) :
    ((generate env productOption input_bytes content_type).1 =
        .err 400 "productOption must be a number (e.g. 1 or 2)." ∨
      (generate env productOption input_bytes content_type).1 =
        .err 400 "productOption must be >= 1.") ∧
    (generate env productOption input_bytes content_type).2.remoteCalls = 0 := by
  rcases h with h | ⟨v, hv, hlt⟩
  · constructor
    · exact Or.inl (by simp [generate, h])
    · simp [generate, h, noEffects]
  · constructor
    · exact Or.inr (by simp [generate, hv, hlt])
    · simp [generate, hv, hlt, noEffects]

/-- An inert environment for exercising the validation path. -/
def envTrivial : GenEnv :=
  ⟨"20250101T000000Z", 0, ⟨0, ⟨none, none⟩⟩, fun _ => ⟨0, .other⟩,
    fun _ => none, fun _ => none, ""⟩

/-- C5 witness: a non-numeric option string is rejected with no remote call. -/
theorem C5_witness :
    ((generate envTrivial "abc" [1] none).1 =
        .err 400 "productOption must be a number (e.g. 1 or 2)." ∨
      (generate envTrivial "abc" [1] none).1 =
        .err 400 "productOption must be >= 1.") ∧
    (generate envTrivial "abc" [1] none).2.remoteCalls = 0 :=
  C5_generate_rejects_bad_option envTrivial "abc" [1] none (Or.inl (by decide))

/-! ## Claim C1: the archive identifier format -/

/-- C1 (amended): every successful run returns an archive identifier of the
form `<UTCstamp>_bag-<two-digit option>_task_<taskId>` — the stamp and the
task id are separated by the `bag-NN` label and the literal `task` segment —
and that identifier is the common prefix of the input and output blob
filenames (continued by `_input<ext>` / `_output.png`) and is the `id` and
`ts`-carrying index record's id. -/
theorem C1_generate_archive_id (env : GenEnv) (productOption : String)
    (input_bytes : List Nat) (content_type : Option String)
    (payload : GenSuccess) (fx : GenEffects)
    (h : generate env productOption input_bytes content_type = (.ok payload, fx)) :
    ∃ opt, pyParseInt productOption = some opt ∧ 1 ≤ opt ∧
      payload.archiveId =
        env.ts ++ "_" ++ ("bag-" ++ py02d opt) ++ "_task_" ++ payload.taskId ∧
      fx.inputFile = some (payload.archiveId ++ "_input" ++
        safe_ext_from_mime env.guess_ext
          (pyOrStr content_type "application/octet-stream")) ∧
      fx.outputFile = some (payload.archiveId ++ "_output.png") ∧
      fx.logRecord.map LogRecord.id = some payload.archiveId ∧
      fx.logRecord.map LogRecord.ts = some env.ts := by
  simp only [generate] at h
  split at h
  · simp at h
  next opt hopt =>
    split at h
    · simp at h
    next hlt =>
      split at h
      · simp at h
      next hbytes =>
        split at h
        · simp at h
        next hcode =>
          split at h
          · simp at h
          next htid =>
            split at h
            · simp at h
            · simp at h
            next outputs hpoll =>
              split at h
              · simp at h
              next hurl =>
                split at h
                · simp at h
                next output_bytes hfetch =>
                  obtain ⟨h1, h2⟩ := Prod.mk.injEq .. |>.mp h
                  obtain h1' := GenResponse.ok.injEq .. |>.mp h1
                  subst h2
                  cases h1'
                  exact ⟨opt, hopt, by omega, rfl, rfl, rfl, rfl, rfl⟩

/-- A fully successful concrete environment: create returns task id `T1`,
the first outputs query returns a one-element list, the download succeeds. -/
def envC1 : GenEnv :=
  ⟨"20250101T000000Z", 7, ⟨0, ⟨some "T1", none⟩⟩,
    fun _ => ⟨0, .lst [⟨some "http://x/out.png", none, none, none⟩]⟩,
    fun _ => some [1, 2, 3], fun _ => some ".png", "tok"⟩

/-- C1, counterexample: a successful run whose archive identifier is
`20250101T000000Z_bag-01_task_T1`, not the claimed
`<UTCstamp>_<taskId> = 20250101T000000Z_T1` — the `bag-01` label and the
literal `task` segment sit between the stamp and the task id. -/
theorem C1_counterexample :
    (generate envC1 "1" [0] (some "image/png")).1 =
      .ok ⟨"T1", 7, "20250101T000000Z_bag-01_task_T1",
        "/api/archive/download/20250101T000000Z_bag-01_task_T1?token=tok&kind=output",
        "/api/archive/download/20250101T000000Z_bag-01_task_T1?token=tok&kind=input"⟩ ∧
    ("20250101T000000Z_bag-01_task_T1" : String) ≠
      "20250101T000000Z" ++ "_" ++ "T1" := by
  refine ⟨rfl, by decide⟩

/-- C1 witness: the amended format theorem applied to the concrete run. -/
theorem C1_witness :
    pyParseInt "1" = some 1 ∧
    ("20250101T000000Z_bag-01_task_T1" : String) =
      envC1.ts ++ "_" ++ ("bag-" ++ py02d 1) ++ "_task_" ++ "T1" ∧
    (generate envC1 "1" [0] (some "image/png")).2.inputFile =
      some ("20250101T000000Z_bag-01_task_T1" ++ "_input" ++
        safe_ext_from_mime envC1.guess_ext
          (pyOrStr (some "image/png") "application/octet-stream")) ∧
    (generate envC1 "1" [0] (some "image/png")).2.outputFile =
      some ("20250101T000000Z_bag-01_task_T1" ++ "_output.png") ∧
    (generate envC1 "1" [0] (some "image/png")).2.logRecord.map LogRecord.id =
      some "20250101T000000Z_bag-01_task_T1" := by
  obtain ⟨opt, hopt, -, harch, hin, hout, hid, -⟩ :=
    C1_generate_archive_id envC1 "1" [0] (some "image/png")
      ⟨"T1", 7, "20250101T000000Z_bag-01_task_T1",
        "/api/archive/download/20250101T000000Z_bag-01_task_T1?token=tok&kind=output",
        "/api/archive/download/20250101T000000Z_bag-01_task_T1?token=tok&kind=input"⟩
      (generate envC1 "1" [0] (some "image/png")).2 rfl
  have hopt1 : opt = 1 := by
    have : (some (1 : Int)) = some opt := by rw [← hopt]; rfl
    exact (Option.some.injEq .. |>.mp this).symm
  subst hopt1
  exact ⟨rfl, harch, hin, hout, hid⟩

/-! ## Claims C6 and C9: the `since` filter of `/api/archive/list` -/

/-- Every record returned by `archive_list` comes from the log and passed
the `since` filter. -/
theorem archive_list_mem (log : List LogLine) (since : Option String)
    (limit : Nat) (rec : LogLine) (h : rec ∈ archive_list log since limit) :
    rec ∈ log ∧
      (pyTruthy since && pyStrLe (rec.ts.getD "") (since.getD "")) = false := by
  unfold archive_list pySliceLast at h
  have h2 : rec ∈ log.filter fun r =>
      !(pyTruthy since && pyStrLe (r.ts.getD "") (since.getD "")) := by
    by_cases hl : limit = 0
    · simpa [hl] using h
    · rw [if_neg hl] at h
      exact List.mem_of_mem_drop h
  have h3 := List.mem_filter.mp h2
  refine ⟨h3.1, ?_⟩
  have h4 : (!(pyTruthy since && pyStrLe (rec.ts.getD "") (since.getD ""))) =
      true := h3.2
  cases hb : pyTruthy since && pyStrLe (rec.ts.getD "") (since.getD "") with
  | false => rfl
  | true => rw [hb] at h4; exact absurd h4 (by decide)

/-- C6, counterexample: the claim quantifies over *every provided* `since`
value.  Providing the empty string is Python-falsy, so `archive_list` skips
the filter entirely and returns a record whose timestamp `""` is
lexicographically `≤` the provided value `""`. -/
theorem C6_counterexample :
    archive_list [⟨some "r1", some ""⟩] (some "") 50 = [⟨some "r1", some ""⟩] ∧
    pyStrLe ((⟨some "r1", some ""⟩ : LogLine).ts.getD "") "" = true :=
  ⟨rfl, rfl⟩

/-- C6 (amended): for every log content and every provided *non-empty*
`since` value `X`, no record returned by `archive_list` has a timestamp
(read as `""` when the `ts` field is missing) lexicographically `≤ X`. -/
theorem C6_archive_list_filters_since (log : List LogLine) (X : String)
    (limit : Nat) (rec : LogLine) (hX : X ≠ "")
    (h : rec ∈ archive_list log (some X) limit) :
    pyStrLe (rec.ts.getD "") X = false := by
  have h2 := (archive_list_mem log (some X) limit rec h).2
  have ht : pyTruthy (some X) = true := by simp [pyTruthy, hX]
  simpa [ht] using h2

/-- C6 witness: a record with a strictly later timestamp survives the
filter, and its timestamp is indeed not `≤` the cutoff. -/
theorem C6_witness :
    pyStrLe ((⟨some "a", some "20250201T000000Z"⟩ : LogLine).ts.getD "")
      "20250101T000000Z" = false :=
  C6_archive_list_filters_since [⟨some "a", some "20250201T000000Z"⟩]
    "20250101T000000Z" 50 ⟨some "a", some "20250201T000000Z"⟩
    (by decide) (by decide)

/-- C9: with a non-empty `since` parameter, no returned record lacks a `ts`
field — a missing timestamp reads as `""`, which is `≤` every string, so the
filter always drops it. -/
theorem C9_archive_list_since_requires_ts (log : List LogLine) (X : String)
    (limit : Nat) (rec : LogLine) (hX : X ≠ "")
    (h : rec ∈ archive_list log (some X) limit) : rec.ts ≠ none := by
  intro hnone
  have h2 := (archive_list_mem log (some X) limit rec h).2
  have ht : pyTruthy (some X) = true := by simp [pyTruthy, hX]
  rw [hnone] at h2
  simp only [ht, Option.getD_none, Bool.true_and] at h2
  exact absurd h2 (by simp [pyStrLe, lexLeAux])

/-- C9 witness: the theorem applied to a concrete one-record log. -/
theorem C9_witness :
    (⟨some "b", some "20250201T000000Z"⟩ : LogLine).ts ≠ none :=
  C9_archive_list_since_requires_ts [⟨some "b", some "20250201T000000Z"⟩]
    "20250101T000000Z" 50 ⟨some "b", some "20250201T000000Z"⟩
    (by decide) (by decide)

/-! ## Claims C7 and C10: the retention sweep -/

/-- C7: the sweep deletes nothing when the retention setting is unset
(empty) or non-positive; with a window of `d ≥ 1` days, a blob whose
parseable leading stamp predates `now - d` days is deleted and one whose
stamp does not predate it is retained. -/
theorem C7_cleanup_old_archives_window :
    (∀ now files, cleanup_old_archives "" now files = []) ∧
    (∀ retention now files d, pyParseInt retention = some d → d ≤ 0 →
      cleanup_old_archives retention now files = []) ∧
    (∀ retention now files d name stamp, pyParseInt retention = some d →
      1 ≤ d → parseStamp (leadingSegment name) = some stamp →
      (name ∈ cleanup_old_archives retention now files ↔
        name ∈ files ∧ (stamp : Int) < now - d * 86400)) := by
  refine ⟨fun now files => by simp [cleanup_old_archives], ?_, ?_⟩
  · intro retention now files d hparse hd
    unfold cleanup_old_archives
    by_cases hne : retention = ""
    · rw [if_pos hne]
    · rw [if_neg hne, hparse]
      simp [hd]
  · intro retention now files d name stamp hparse hd hstamp
    have hne : retention ≠ "" := by
      rintro rfl
      have h0 : pyParseInt "" = none := rfl
      rw [h0] at hparse
      exact Option.noConfusion hparse
    have hd0 : ¬ d ≤ 0 := by omega
    unfold cleanup_old_archives
    rw [if_neg hne, hparse]
    simp [hd0, List.mem_filter, hstamp]

/-- C7 witness: with a 30-day window at 2025-03-01T00:00:00Z, a blob stamped
2025-01-01 (before the cutoff) is deleted. -/
theorem C7_witness :
    "20250101T000000Z_bag-01_task_T1_output.png" ∈
      cleanup_old_archives "30" 63876384000
        ["20250101T000000Z_bag-01_task_T1_output.png"] :=
  (C7_cleanup_old_archives_window.2.2 "30" 63876384000
      ["20250101T000000Z_bag-01_task_T1_output.png"] 30
      "20250101T000000Z_bag-01_task_T1_output.png" 63871286400
      (by decide) (by decide) (by decide)).mpr
    ⟨by decide, by decide⟩

/-- C10: a non-empty retention setting that does not parse as an integer
makes the sweep a no-op — the `int()` failure is swallowed by the bare
`except: return`, so nothing is deleted and no error reaches the caller
(the model is a total function returning the empty deletion list). -/
theorem C10_cleanup_nonint_noop (retention : String) (now : Int)
    (files : List String) (hne : retention ≠ "")
    (hparse : pyParseInt retention = none) :
    cleanup_old_archives retention now files = [] := by
  unfold cleanup_old_archives
  rw [if_neg hne, hparse]

/-- C10 witness: the sweep ignores the setting `"abc"`. -/
theorem C10_witness :
    cleanup_old_archives "abc" 63876384000
      ["20250101T000000Z_bag-01_task_T1_output.png"] = [] :=
  C10_cleanup_nonint_noop "abc" 63876384000
    ["20250101T000000Z_bag-01_task_T1_output.png"] (by decide) (by decide)

/-! ## Claim C8: download authentication fails closed -/

/-- C8: the download endpoint answers 401 whenever the configured secret is
empty (for every supplied token) or the supplied token differs from it, and
in both cases the directory scan for the archive id is never performed. -/
theorem C8_download_auth_fail_closed (archive_token token archive_id kind : String)
    (input_files output_files : List String)
    (h : archive_token = "" ∨ token ≠ archive_token) :
    ((archive_download archive_token input_files output_files
          archive_id token kind).1 =
        .err 401 "ARCHIVE_TOKEN is not configured on server." ∨
      (archive_download archive_token input_files output_files
          archive_id token kind).1 = .err 401 "Invalid token.") ∧
    (archive_download archive_token input_files output_files
        archive_id token kind).2 = false := by
  by_cases h0 : archive_token = ""
  · constructor
    · exact Or.inl (by simp [archive_download, require_token, h0])
    · simp [archive_download, require_token, h0]
  · have hne : token ≠ archive_token := h.resolve_left h0
    constructor
    · exact Or.inr (by simp [archive_download, require_token, h0, hne])
    · simp [archive_download, require_token, h0, hne]

/-- C8 witness: wrong token against a configured secret — 401, no scan. -/
theorem C8_witness :
    ((archive_download "secret" ["20250101T000000Z_bag-01_task_T1_input.png"]
          [] "20250101T000000Z_bag-01_task_T1" "wrong" "input").1 =
        .err 401 "ARCHIVE_TOKEN is not configured on server." ∨
      (archive_download "secret" ["20250101T000000Z_bag-01_task_T1_input.png"]
          [] "20250101T000000Z_bag-01_task_T1" "wrong" "input").1 =
        .err 401 "Invalid token.") ∧
    (archive_download "secret" ["20250101T000000Z_bag-01_task_T1_input.png"]
        [] "20250101T000000Z_bag-01_task_T1" "wrong" "input").2 = false :=
  C8_download_auth_fail_closed "secret" "wrong" "20250101T000000Z_bag-01_task_T1"
    "input" ["20250101T000000Z_bag-01_task_T1_input.png"] []
    (Or.inr (by decide))

end AbleCarry
